import Mathlib

/-!
Verification of the ai-inference-platform request-handling slice:
request fingerprinting (cache-key derivation), the cache-aside store,
the inference stub, request validation and the rate-limited request
pipeline.  Python code is shallowly embedded: dictionaries become
association lists over an inductive value type, machine integers become
Nat/Int, floats become exact rationals, exceptions become Except, and
the Redis backend becomes an explicit store plus a per-call outcome
(whether the backend call raises).
-/

/-- Values produced by json.loads and consumed by json.dumps: the subset
of Python objects that appear in this service (strings, ints, floats
modelled as rationals, booleans, None, lists, dicts as association
lists). -/
inductive PyVal where
  | str (s : String)
  | int (n : Int)
  | float (q : Rat)
  | bool (b : Bool)
  | none
  | list (xs : List PyVal)
  | dict (fields : List (String × PyVal))

/-- Python truthiness for the values the handler tests with `if x:`. -/
def pyTruthy : PyVal → Bool
  | .str s => !(s == "")
  | .int n => !(n == 0)
  | .float q => !(q == 0)
  | .bool b => b
  | .none => false
  | .list xs => !xs.isEmpty
  | .dict fields => !fields.isEmpty

/-- Python dict lookup d[k] over an association list (keys unique). -/
def dictLookup (fields : List (String × PyVal)) (k : String) : Option PyVal :=
  (fields.find? (fun p => p.1 == k)).map (fun p => p.2)

/-- A transport payload (decoded JSON request body): field names with
values, in arrival order. -/
abbrev RawPayload := List (String × PyVal)

/-- Field extraction from a payload, as pydantic does by name. -/
def lookupField (body : RawPayload) (k : String) : Option PyVal :=
  dictLookup body k

-- ## JSON serialization (json.dumps), as used for the cache key

/-- Hex digit character, lowercase, as Python produces. -/
def hexDigit (n : Nat) : Char :=
  if n < 10 then Char.ofNat (48 + n) else Char.ofNat (87 + (n % 16))

/-- Fixed-width big-endian hex rendering of a number. -/
def hexPad : Nat → Nat → String
  | 0, _ => ""
  | w + 1, n => hexPad w (n / 16) ++ String.singleton (hexDigit (n % 16))

/-- The \uXXXX escape used by json.dumps (ensure_ascii default), with a
surrogate pair for code points above the basic multilingual plane. -/
def jsonUnicodeEscape (n : Nat) : String :=
  if n < 65536 then "\\u" ++ hexPad 4 n
  else
    let m := n - 65536
    "\\u" ++ hexPad 4 (55296 + m / 1024) ++ "\\u" ++ hexPad 4 (56320 + m % 1024)

/-- Per-character escaping of json.dumps with its default ensure_ascii:
the two mandatory escapes, the five short control escapes, \uXXXX for
the remaining control characters and for everything outside printable
ASCII. -/
def jsonEscapeChar (c : Char) : String :=
  if c = Char.ofNat 34 then "\\\""
  else if c = Char.ofNat 92 then "\\\\"
  else if c = Char.ofNat 10 then "\\n"
  else if c = Char.ofNat 13 then "\\r"
  else if c = Char.ofNat 9 then "\\t"
  else if c = Char.ofNat 8 then "\\b"
  else if c = Char.ofNat 12 then "\\f"
  else if c.toNat < 32 ∨ c.toNat > 126 then jsonUnicodeEscape c.toNat
  else String.singleton c

/-- json.dumps rendering of a Python string, quotes included. -/
def jsonString (s : String) : String :=
  "\"" ++ s.data.foldr (fun c acc => jsonEscapeChar c ++ acc) "" ++ "\""

/-- Decimal digits of num / den after the point (num < den), stopping
when the remainder vanishes; fuel 17 models the precision at which
CPython repr of a float is exact for the decimal literals in play. -/
def fracDigits : Nat → Nat → Nat → String
  | 0, _, _ => ""
  | _, 0, _ => ""
  | fuel + 1, r, d =>
      String.singleton (Char.ofNat (48 + (r * 10) / d % 10)) ++
        fracDigits fuel (r * 10 % d) d

/-- Models CPython repr of a finite float holding an exact decimal
value (such as 0.7, 0.0 or 2.0): integer part, a point, then the
fractional digits (at least one, as repr of a float always shows). -/
def floatReprModel (q : Rat) : String :=
  let sign := if q < 0 then "-" else ""
  let n := q.num.natAbs
  let frac := fracDigits 17 (n % q.den) q.den
  sign ++ toString (n / q.den) ++ "." ++ (if frac = "" then "0" else frac)

/-- json.dumps rendering of Optional[int]: null for None. -/
def jsonOptInt : Option Int → String
  | Option.none => "null"
  | Option.some n => toString n

/-- json.dumps rendering of Optional[float]: null for None. -/
def jsonOptFloat : Option Rat → String
  | Option.none => "null"
  | Option.some q => floatReprModel q

-- ## SHA-256 (hashlib.sha256), over byte lists, Nat arithmetic mod 2^32

/-- UTF-8 encoding of one character (str.encode). -/
def charUtf8 (c : Char) : List Nat :=
  let n := c.toNat
  if n < 128 then [n]
  else if n < 2048 then [192 + n / 64, 128 + n % 64]
  else if n < 65536 then [224 + n / 4096, 128 + n / 64 % 64, 128 + n % 64]
  else [240 + n / 262144, 128 + n / 4096 % 64, 128 + n / 64 % 64, 128 + n % 64]

/-- UTF-8 encoding of a string (str.encode), as a list of byte values. -/
def utf8Bytes (s : String) : List Nat :=
  s.data.foldr (fun c acc => charUtf8 c ++ acc) []

/-- Truncation to a 32-bit word. -/
def w32 (n : Nat) : Nat := n % 4294967296

/-- Right rotation of a 32-bit word. -/
def rotr32 (x n : Nat) : Nat :=
  w32 ((x >>> n) + (x % 2 ^ n) * 2 ^ (32 - n))

/-- The 64 SHA-256 round constants of FIPS 180-4, in decimal. -/
def sha256K : List Nat :=
  [1116352408, 1899447441, 3049323471, 3921009573, 961987163,
   1508970993, 2453635748, 2870763221, 3624381080, 310598401,
   607225278, 1426881987, 1925078388, 2162078206, 2614888103,
   3248222580, 3835390401, 4022224774, 264347078, 604807628,
   770255983, 1249150122, 1555081692, 1996064986, 2554220882,
   2821834349, 2952996808, 3210313671, 3336571891, 3584528711,
   113926993, 338241895, 666307205, 773529912, 1294757372,
   1396182291, 1695183700, 1986661051, 2177026350, 2456956037,
   2730485921, 2820302411, 3259730800, 3345764771, 3516065817,
   3600352804, 4094571909, 275423344, 430227734, 506948616,
   659060556, 883997877, 958139571, 1322822218, 1537002063,
   1747873779, 1955562222, 2024104815, 2227730452, 2361852424,
   2428436474, 2756734187, 3204031479, 3329325298]

/-- The SHA-256 initial hash value, in decimal. -/
def sha256H0 : List Nat :=
  [1779033703, 3144134277, 1013904242, 2773480762,
   1359893119, 2600822924, 528734635, 1541459225]

/-- Big-endian byte rendering of a number, fixed width. -/
def beBytes : Nat → Nat → List Nat
  | 0, _ => []
  | k + 1, n => beBytes k (n / 256) ++ [n % 256]

/-- SHA-256 message padding: 0x80, zeros to 56 mod 64, 64-bit length. -/
def sha256Pad (msg : List Nat) : List Nat :=
  let L := msg.length
  msg ++ [128] ++ List.replicate ((119 - L % 64) % 64) 0 ++ beBytes 8 (8 * L)

/-- Split a byte list into 64-byte blocks (fuel is the list length). -/
def chunks64Aux : Nat → List Nat → List (List Nat)
  | 0, _ => []
  | _ + 1, [] => []
  | fuel + 1, l => l.take 64 :: chunks64Aux fuel (l.drop 64)

/-- The 64-byte blocks of a padded message. -/
def chunks64 (l : List Nat) : List (List Nat) := chunks64Aux l.length l

/-- Big-endian 32-bit words of a block. -/
def blockWords : List Nat → List Nat
  | b0 :: b1 :: b2 :: b3 :: rest =>
      (((b0 * 256 + b1) * 256 + b2) * 256 + b3) :: blockWords rest
  | _ => []

/-- The small sigma-0 function of the message schedule. -/
def sigS0 (x : Nat) : Nat :=
  Nat.xor (Nat.xor (rotr32 x 7) (rotr32 x 18)) (x >>> 3)

/-- The small sigma-1 function of the message schedule. -/
def sigS1 (x : Nat) : Nat :=
  Nat.xor (Nat.xor (rotr32 x 17) (rotr32 x 19)) (x >>> 10)

/-- Extend the 16 block words to the 64-entry message schedule. -/
def extendWords : Nat → List Nat → List Nat
  | 0, ws => ws
  | n + 1, ws =>
      let L := ws.length
      extendWords n (ws ++ [w32 (ws.getD (L - 16) 0 + sigS0 (ws.getD (L - 15) 0) +
        ws.getD (L - 7) 0 + sigS1 (ws.getD (L - 2) 0))])

/-- One SHA-256 compression round on the eight-word state. -/
def sha256Round (st : List Nat) (kw : Nat × Nat) : List Nat :=
  match st with
  | [a, b, c, d, e, f, g, h] =>
      let S1 := rotr32 e 6 ^^^ rotr32 e 11 ^^^ rotr32 e 25
      let ch := (e &&& f) ^^^ ((e ^^^ 4294967295) &&& g)
      let t1 := h + S1 + ch + kw.1 + kw.2
      let S0 := rotr32 a 2 ^^^ rotr32 a 13 ^^^ rotr32 a 22
      let mj := (a &&& b) ^^^ (a &&& c) ^^^ (b &&& c)
      let t2 := S0 + mj
      [w32 (t1 + t2), a, b, c, w32 (d + t1), e, f, g]
  | other => other

/-- Process one 64-byte block into the running hash. -/
def sha256Block (H : List Nat) (block : List Nat) : List Nat :=
  let ws := extendWords 48 (blockWords block)
  let st := (sha256K.zip ws).foldl sha256Round H
  (H.zip st).map (fun p => w32 (p.1 + p.2))

/-- SHA-256 of a byte list, as the 32 digest bytes. -/
def sha256 (msg : List Nat) : List Nat :=
  ((chunks64 (sha256Pad msg)).foldl sha256Block sha256H0).flatMap (beBytes 4)

/-- Lowercase hex digest, as hashlib hexdigest returns. -/
def sha256hex (msg : List Nat) : String :=
  (sha256 msg).foldl (fun acc b => acc ++ hexPad 2 b) ""

-- ## CacheService._generate_cache_key

/-- The canonical serialization json.dumps(cache_data, sort_keys=True)
of the three-entry dict built in _generate_cache_key; the sorted key
order is max_tokens, prompt, temperature, and an absent optional field
is the explicit null of Python None. -/
def cacheString (prompt : String) (max_tokens : Option Int)
    (temperature : Option Rat) : String :=
  "\x7b\"max_tokens\": " ++ jsonOptInt max_tokens ++
    ", \"prompt\": " ++ jsonString prompt ++
    ", \"temperature\": " ++ jsonOptFloat temperature ++ "\x7d"

/-- CacheService._generate_cache_key: SHA-256 hex digest of the
canonical serialization, behind the inference namespace tag. -/
def generate_cache_key (prompt : String) (max_tokens : Option Int)
    (temperature : Option Rat) : String :=
  "inference:" ++ sha256hex (utf8Bytes (cacheString prompt max_tokens temperature))

-- ## Configuration (app.core.config.Settings defaults)

/-- The configuration fields this slice reads, with the defaults of
config.py (environment overrides are modelled by constructing a
different value). -/
structure Settings where
  redis_ttl : Nat := 60
  rate_limit_enabled : Bool := true
  rate_limit_per_minute : Nat := 10
  model_name : String := "default-model"
  model_version : String := "1.0.0"
  model_max_tokens : Int := 1000
  model_temperature : Rat := mkRat 7 10
deriving DecidableEq

/-- The global settings instance, at its defaults. -/
def settings : Settings := {}

-- ## ModelService (app.services.model)

/-- The Python idiom x or default on an optional int argument: the
default is taken when the argument is None or the falsy 0. -/
def pyOrInt (x : Option Int) (d : Int) : Int :=
  match x with
  | Option.none => d
  | Option.some v => if v = 0 then d else v

/-- The Python idiom x or default on an optional float argument: the
default is taken when the argument is None or the falsy 0.0. -/
def pyOrRat (x : Option Rat) (d : Rat) : Rat :=
  match x with
  | Option.none => d
  | Option.some v => if v = 0 then d else v

/-- ModelService state: the fields __init__ copies from settings. -/
structure ModelService where
  model_name : String
  model_version : String
  max_tokens : Int
  temperature : Rat
deriving DecidableEq

/-- ModelService construction from settings. -/
def ModelService.ofSettings (s : Settings) : ModelService :=
  { model_name := s.model_name, model_version := s.model_version,
    max_tokens := s.model_max_tokens, temperature := s.model_temperature }

/-- The global model_service instance. -/
def model_service : ModelService := ModelService.ofSettings settings

/-- The dict returned by ModelService.predict. -/
structure PredictResult where
  output : String
  tokens_used : Int
  model_version : String
  model_name : String
deriving DecidableEq

/-- Line 62 of model.py: max_tokens = max_tokens or self.max_tokens. -/
def effectiveMaxTokens (svc : ModelService) (max_tokens : Option Int) : Int :=
  pyOrInt max_tokens svc.max_tokens

/-- Line 63 of model.py: temperature = temperature or self.temperature. -/
def effectiveTemperature (svc : ModelService) (temperature : Option Rat) : Rat :=
  pyOrRat temperature svc.temperature

/-- ModelService.predict: defaulting by the or idiom, the token
estimate arithmetic, and the templated output (the asyncio.sleep delay
has no effect on the returned value and is not modelled). -/
def ModelService.predict (svc : ModelService) (prompt : String)
    (max_tokens : Option Int) (temperature : Option Rat) : PredictResult :=
  let max_tokens := effectiveMaxTokens svc max_tokens
  let temperature := effectiveTemperature svc temperature
  let estimated_tokens : Int := (prompt.length / 4 : Nat)
  let generated_tokens : Int := min max_tokens (estimated_tokens + 10)
  let tokens_used := estimated_tokens + generated_tokens
  let output :=
    "Model response to: " ++ prompt.take 100 ++
      (if prompt.length > 100 then "..." else "") ++
      "\n\n[This is a placeholder response. Real model would generate actual AI output here.]\n" ++
      "[Prompt length: " ++ toString prompt.length ++ " chars, Tokens: ~" ++
      toString tokens_used ++ ", Temp: " ++ floatReprModel temperature ++ "]"
  { output := output, tokens_used := tokens_used,
    model_version := svc.model_version, model_name := svc.model_name }

/-- The result dict as the handler passes it to cache set and as
json.dumps serializes and json.loads restores it. -/
def PredictResult.toDict (r : PredictResult) : PyVal :=
  .dict [("output", .str r.output), ("tokens_used", .int r.tokens_used),
         ("model_version", .str r.model_version), ("model_name", .str r.model_name)]

-- ## CacheService (app.services.cache)

/-- A value sitting in Redis under some key: either the JSON dump of a
Python value (round-tripped by json.loads) or bytes json.loads rejects. -/
inductive StoredVal where
  | json (v : PyVal)
  | malformed

/-- The Redis keyspace: key, remaining TTL tag, stored value. -/
abbrev Store := List (String × Nat × StoredVal)

/-- Redis GET. -/
def storeGet (st : Store) (k : String) : Option StoredVal :=
  (st.find? (fun e => e.1 == k)).map (fun e => e.2.2)

/-- Redis SETEX: replaces the value and TTL under the key. -/
def storeSet (st : Store) (k : String) (ttl : Nat) (v : StoredVal) : Store :=
  (k, ttl, v) :: st.filter (fun e => !(e.1 == k))

/-- Whether one backend call raises (connection refused, timeout, ...). -/
inductive CallOutcome where
  | ok
  | raise
deriving DecidableEq

/-- The wire operations the service can issue to Redis; a get or set
call is backend I/O exactly when its trace is nonempty. -/
inductive BackendOp where
  | ping
  | getKey (key : String)
  | setex (key : String) (ttl : Nat) (value : PyVal)

/-- CacheService state: __init__ stores the TTL from settings and
starts not connected; connect may set _connected. -/
structure CacheService where
  connected : Bool
  ttl : Nat

/-- CacheService as __init__ leaves it (before connect). -/
def CacheService.ofSettings (s : Settings) : CacheService :=
  { connected := false, ttl := s.redis_ttl }

/-- Result of CacheService.connect: the final _connected flag, how many
connection attempts ran, and the sleeps (in seconds) between them. -/
structure ConnectResult where
  connected : Bool
  attempts : Nat
  sleeps : List Nat
deriving DecidableEq

/-- The retry loop of connect over the outcome of each attempt: stop on
the first success; sleep retry_delay after a failure unless it was the
final attempt; after the final failure leave _connected false. -/
def connectGo (retry_delay : Nat) : List Bool → ConnectResult
  | [] => { connected := false, attempts := 0, sleeps := [] }
  | [o] => { connected := o, attempts := 1, sleeps := [] }
  | o :: rest@(_ :: _) =>
      if o then { connected := true, attempts := 1, sleeps := [] }
      else
        let r := connectGo retry_delay rest
        { connected := r.connected, attempts := r.attempts + 1,
          sleeps := retry_delay :: r.sleeps }

/-- CacheService.connect with its hard-coded max_retries = 3 and
retry_delay = 2, over the environment-determined outcome of each
attempt (attempt i succeeds iff outcome i is true). -/
def CacheService.connect (outcome : Nat → Bool) : ConnectResult :=
  connectGo 2 [outcome 0, outcome 1, outcome 2]

/-- CacheService.get: a miss is returned as Python None (PyVal.none),
matching the source which returns None on disabled state, backend
error, unparseable value and true miss alike; alongside the result is
the trace of backend operations issued. -/
def CacheService.get (svc : CacheService) (st : Store) (beh : CallOutcome)
    (prompt : String) (max_tokens : Option Int) (temperature : Option Rat) :
    PyVal × List BackendOp :=
  if svc.connected = false then (.none, [])
  else
    let key := generate_cache_key prompt max_tokens temperature
    match beh with
    | .raise => (.none, [.getKey key])
    | .ok =>
        match storeGet st key with
        | Option.some (.json v) => (v, [.getKey key])
        | Option.some .malformed => (.none, [.getKey key])
        | Option.none => (.none, [.getKey key])

/-- CacheService.set: best effort; returns the store unchanged when the
service is disabled or the backend call raises, and never fails the
caller (the return type has no error case). -/
def CacheService.set (svc : CacheService) (st : Store) (beh : CallOutcome)
    (prompt : String) (result : PyVal) (max_tokens : Option Int)
    (temperature : Option Rat) : Store × List BackendOp :=
  if svc.connected = false then (st, [])
  else
    let key := generate_cache_key prompt max_tokens temperature
    match beh with
    | .raise => (st, [.setex key svc.ttl result])
    | .ok => (storeSet st key svc.ttl (.json result), [.setex key svc.ttl result])

/-- One cache call made after startup, with the outcome its backend
call would have. -/
inductive CacheCall where
  | getCall (beh : CallOutcome) (prompt : String) (max_tokens : Option Int)
      (temperature : Option Rat)
  | setCall (beh : CallOutcome) (prompt : String) (result : PyVal)
      (max_tokens : Option Int) (temperature : Option Rat)

/-- Run a sequence of get and set calls against a fixed service state
(get and set never assign _connected and never call connect), threading
the store and accumulating every backend operation issued. -/
def runCacheCalls (svc : CacheService) : Store → List CacheCall →
    Store × List BackendOp
  | st, [] => (st, [])
  | st, .getCall beh p mt tp :: rest =>
      let r := svc.get st beh p mt tp
      let rec2 := runCacheCalls svc st rest
      (rec2.1, r.2 ++ rec2.2)
  | st, .setCall beh p v mt tp :: rest =>
      let r := svc.set st beh p v mt tp
      let rec2 := runCacheCalls svc r.1 rest
      (rec2.1, r.2 ++ rec2.2)

-- ## Request validation (pydantic InferenceRequest, routes.py 27-31)

/-- A validated request body after pydantic parsing: Optional fields
hold None only when the client sent an explicit null (an omitted field
takes the Field default). -/
structure InferenceRequest where
  prompt : String
  max_tokens : Option Int
  temperature : Option Rat
deriving DecidableEq

/-- Pydantic rejection of a request body (surfaced as 422). -/
inductive ValidationFailure where
  | badPrompt
  | badMaxTokens
  | badTemperature
deriving DecidableEq

/-- prompt: str = Field(..., min_length=1) — required, nonempty. -/
def parsePrompt (body : RawPayload) : Except ValidationFailure String :=
  match lookupField body "prompt" with
  | Option.some (.str s) =>
      if 1 ≤ s.length then .ok s else .error .badPrompt
  | Option.some _ => .error .badPrompt
  | Option.none => .error .badPrompt

/-- max_tokens: Optional[int] = Field(default=100, ge=1, le=1000) — an
omitted field takes the default 100; an explicit null passes as None;
the range constraints apply to supplied integers. -/
def parseMaxTokens (body : RawPayload) : Except ValidationFailure (Option Int) :=
  match lookupField body "max_tokens" with
  | Option.none => .ok (Option.some 100)
  | Option.some .none => .ok Option.none
  | Option.some (.int n) =>
      if 1 ≤ n ∧ n ≤ 1000 then .ok (Option.some n) else .error .badMaxTokens
  | Option.some _ => .error .badMaxTokens

/-- temperature: Optional[float] = Field(default=0.7, ge=0.0, le=2.0) —
an omitted field takes the default 0.7; an explicit null passes as
None; supplied floats (and ints, which pydantic coerces to float) must
lie in the range. -/
def parseTemperature (body : RawPayload) : Except ValidationFailure (Option Rat) :=
  match lookupField body "temperature" with
  | Option.none => .ok (Option.some (mkRat 7 10))
  | Option.some .none => .ok Option.none
  | Option.some (.float q) =>
      if 0 ≤ q ∧ q ≤ 2 then .ok (Option.some q) else .error .badTemperature
  | Option.some (.int n) =>
      if 0 ≤ n ∧ n ≤ 2 then .ok (Option.some (n : Rat)) else .error .badTemperature
  | Option.some _ => .error .badTemperature

/-- Pydantic validation of the request body. -/
def parseBody (body : RawPayload) : Except ValidationFailure InferenceRequest := do
  let prompt ← parsePrompt body
  let max_tokens ← parseMaxTokens body
  let temperature ← parseTemperature body
  .ok { prompt := prompt, max_tokens := max_tokens, temperature := temperature }

-- ## The inference endpoint (routes.py 49-170)

/-- The response model of the endpoint (routes.py 34-38). -/
structure InferenceResponse where
  output : String
  tokens_used : Int
  model_version : String
deriving DecidableEq

/-- Exceptions the cache-hit path can raise; they reach the except
clause at line 160 and are re-raised (surfaced as a 500). -/
inductive PyError where
  | keyError (k : String)
  | attributeError
  | typeError
deriving DecidableEq

/-- Attribute access cached_result.get requires a dict (json.loads may
have produced any value); otherwise Python raises AttributeError. -/
def pyDictFields : PyVal → Except PyError (List (String × PyVal))
  | .dict fields => .ok fields
  | _ => .error .attributeError

/-- Subscript access d[k]: KeyError when the key is absent. -/
def dictItem (fields : List (String × PyVal)) (k : String) : Except PyError PyVal :=
  match dictLookup fields k with
  | Option.some v => .ok v
  | Option.none => .error (.keyError k)

/-- The cache-hit path of the handler (routes.py 85-108), with the dict
accesses in source order: cached_result.get("model_version", ...) then
cached_result["tokens_used"] at line 97, then the InferenceResponse
keyword arguments output, tokens_used, model_version; building the
pydantic response requires the declared field types. -/
def hitResponse (cached_result : PyVal) : Except PyError InferenceResponse := do
  let fields ← pyDictFields cached_result
  let _ ← dictItem fields "tokens_used"
  let output ← dictItem fields "output"
  let tokens_used ← dictItem fields "tokens_used"
  let model_version ← dictItem fields "model_version"
  match output, tokens_used, model_version with
  | .str o, .int n, .str v =>
      .ok { output := o, tokens_used := n, model_version := v }
  | _, _, _ => .error .typeError

/-- What one run of the endpoint body produced: its outcome (a normal
response, or the exception it re-raised), the store it left behind, how
often it invoked the model stub, and the backend operations issued. -/
structure HandlerOutcome where
  response : Except PyError InferenceResponse
  store : Store
  stub_calls : Nat
  backend_ops : List BackendOp

/-- The endpoint body (routes.py 75-170) on a validated request: cache
get with the request parameters; a truthy cached value is returned via
the hit path; otherwise predict runs once and the result dict is stored
with the configured TTL by a best-effort set. -/
def inference (svc : CacheService) (model : ModelService) (st : Store)
    (getBeh setBeh : CallOutcome) (req : InferenceRequest) : HandlerOutcome :=
  let got := svc.get st getBeh req.prompt req.max_tokens req.temperature
  if pyTruthy got.1 then
    { response := hitResponse got.1, store := st, stub_calls := 0,
      backend_ops := got.2 }
  else
    let result := model.predict req.prompt req.max_tokens req.temperature
    let setr := svc.set st setBeh req.prompt result.toDict req.max_tokens
      req.temperature
    let resp : InferenceResponse :=
      { output := result.output, tokens_used := result.tokens_used,
        model_version := result.model_version }
    { response := .ok resp, store := setr.1, stub_calls := 1,
      backend_ops := got.2 ++ setr.2 }

-- ## Rate limiting (app.services.rate_limit) and the request pipeline

/-- The slowapi Limiter as rate_limit.py constructs it: the enabled
flag is not passed (slowapi defaults it to true); default_limits is the
per-minute limit when rate_limit_enabled, else empty. -/
structure LimiterConfig where
  enabled : Bool
  defaultLimits : List Nat
deriving DecidableEq

/-- limiter = Limiter(key_func=get_remote_address, default_limits=...). -/
def mkLimiter (s : Settings) : LimiterConfig :=
  { enabled := true,
    defaultLimits := if s.rate_limit_enabled then [s.rate_limit_per_minute] else [] }

/-- The explicit decorator limit on the route,
@limiter.limit(f"...{rate_limit_per_minute}/minute"), applied to the
endpoint regardless of rate_limit_enabled and overriding the default
limits (slowapi override_defaults). -/
def routeLimitPerMinute (s : Settings) : Nat := s.rate_limit_per_minute

/-- Fixed-window counters per client identity: identity, window start
time, count of requests admitted in the window. -/
abbrev WindowState := List (String × Nat × Nat)

/-- One window check-and-hit for an identity at the given time: a new
or elapsed window restarts the counter; within a window the request is
admitted while the count is below the limit. -/
def windowHit (limit : Nat) (win : WindowState) (identity : String) (now : Nat) :
    Bool × WindowState :=
  match win.find? (fun e => e.1 == identity) with
  | Option.none =>
      if 0 < limit then (true, (identity, now, 1) :: win) else (false, win)
  | Option.some e =>
      let start := e.2.1
      let count := e.2.2
      if start + 60 ≤ now then
        if 0 < limit then
          (true, (identity, now, 1) :: win.filter (fun x => !(x.1 == identity)))
        else (false, win)
      else if count < limit then
        (true, (identity, start, count + 1) :: win.filter (fun x => !(x.1 == identity)))
      else (false, win)

/-- The decorator wrapper check: when the limiter is enabled, the
explicit route limit is enforced against the window of the client
identity. -/
def limiterCheck (lim : LimiterConfig) (routeLimit : Nat) (win : WindowState)
    (identity : String) (now : Nat) : Bool × WindowState :=
  if lim.enabled then windowHit routeLimit win identity now else (true, win)

/-- What the HTTP boundary returns for POST /api/v1/infer. -/
inductive HttpResponse where
  | ok (r : InferenceResponse)
  | unprocessableEntity
  | tooManyRequests
  | internalServerError
deriving DecidableEq

/-- What happened, in order, while serving one request. -/
inductive PipelineEvent where
  | validationFailed
  | validated
  | limiterRejected
  | limiterPassed
  | endpointCalled
deriving DecidableEq

/-- The observable result of one request through the pipeline. -/
structure PipelineResult where
  response : HttpResponse
  window : WindowState
  store : Store
  events : List PipelineEvent

/-- One request through the deployed route: FastAPI resolves and
validates the pydantic body parameters of the decorated endpoint before
invoking it, so a validation failure returns 422 without running the
slowapi wrapper; the wrapper then checks the rate limit and either
returns 429 or runs the endpoint body, whose uncaught exceptions become
a 500. -/
def processRequest (s : Settings) (svc : CacheService) (model : ModelService)
    (getBeh setBeh : CallOutcome) (win : WindowState) (st : Store) (now : Nat)
    (identity : String) (body : RawPayload) : PipelineResult :=
  match parseBody body with
  | .error _ =>
      { response := .unprocessableEntity, window := win, store := st,
        events := [.validationFailed] }
  | .ok req =>
      let lim := mkLimiter s
      let hit := limiterCheck lim (routeLimitPerMinute s) win identity now
      if hit.1 then
        let h := inference svc model st getBeh setBeh req
        { response := (match h.response with
            | .ok r => .ok r
            | .error _ => .internalServerError),
          window := hit.2, store := h.store,
          events := [.validated, .limiterPassed, .endpointCalled] }
      else
        { response := .tooManyRequests, window := hit.2, store := st,
          events := [.validated, .limiterRejected] }

/-- n + 1 identical requests from one identity at one instant, each
seeing the window and store the previous one left. -/
def runRepeated (s : Settings) (svc : CacheService) (model : ModelService)
    (identity : String) (body : RawPayload) : Nat → PipelineResult
  | 0 => processRequest s svc model .ok .ok [] [] 0 identity body
  | n + 1 =>
      let p := runRepeated s svc model identity body n
      processRequest s svc model .ok .ok p.window p.store 0 identity body

/-- The cache key as a function of the transport payload: pydantic
field extraction followed by _generate_cache_key; None when validation
rejects the body. -/
def fingerprintOfPayload (body : RawPayload) : Option String :=
  match parseBody body with
  | .ok req => Option.some (generate_cache_key req.prompt req.max_tokens req.temperature)
  | .error _ => Option.none

-- ## Concrete scenario values used by counterexamples and witnesses

/-- Settings with rate limiting disabled by configuration. -/
def settingsOff : Settings := { rate_limit_enabled := false }

/-- A cache service that never connected (disabled state). -/
def svcOff : CacheService := CacheService.ofSettings settingsOff

/-- A connected cache service with the default TTL. -/
def svcOn : CacheService := { connected := true, ttl := 60 }

/-- A minimal valid request body. -/
def goodBody : RawPayload := [("prompt", .str "hi")]

/-- The validated request for prompt hi with explicit parameters. -/
def reqHi : InferenceRequest :=
  { prompt := "hi", max_tokens := Option.some 50, temperature := Option.some (mkRat 7 10) }

/-- A store whose entry under the fingerprint of reqHi is the valid
JSON text of an empty object. -/
def storeEmptyDict : Store :=
  [(generate_cache_key "hi" (Option.some 50) (Option.some (mkRat 7 10)), 60, .json (.dict []))]

/-- A store whose entry under the fingerprint of reqHi is a non-empty
JSON object lacking all three response keys. -/
def storeMissingKeys : Store :=
  [(generate_cache_key "hi" (Option.some 50) (Option.some (mkRat 7 10)), 60,
    .json (.dict [("foo", .int 1)]))]

-- ## Helper lemmas

/-- A single-entry store hits its own key. -/
theorem storeGet_single (k : String) (ttl : Nat) (v : StoredVal) :
    storeGet [(k, ttl, v)] k = Option.some v := by
  simp [storeGet]

/-- A freshly written key reads back the written value. -/
theorem storeGet_storeSet_self (st : Store) (k : String) (ttl : Nat) (v : StoredVal) :
    storeGet (storeSet st k ttl v) k = Option.some v := by
  simp [storeGet, storeSet]

/-- The hit path reconstructs exactly the response fields of a cached
predict result. -/
theorem hitResponse_toDict (r : PredictResult) :
    hitResponse r.toDict =
      .ok { output := r.output, tokens_used := r.tokens_used,
            model_version := r.model_version } := by
  rfl

/-- Field lookup in a payload with distinct field names is invariant
under reordering of the fields. -/
theorem lookupField_perm : ∀ {l1 l2 : RawPayload}, l1.Perm l2 →
    (l1.map Prod.fst).Nodup → ∀ k, lookupField l1 k = lookupField l2 k := by
  intro l1 l2 h
  induction h with
  | nil => intro _ _; rfl
  | cons x h2 ih =>
      intro hnd k
      rw [List.map_cons] at hnd
      have hnd2 := (List.nodup_cons.mp hnd).2
      cases hx : x.1 == k with
      | true =>
          simp only [lookupField, dictLookup]
          rw [List.find?_cons_of_pos (p := fun (q : String × PyVal) => q.1 == k) _ hx, List.find?_cons_of_pos (p := fun (q : String × PyVal) => q.1 == k) _ hx]
      | false =>
          have hx2 : ¬((fun p => p.1 == k) x = true) := by simp [hx]
          simp only [lookupField, dictLookup]
          rw [List.find?_cons_of_neg (p := fun (q : String × PyVal) => q.1 == k) _ hx2, List.find?_cons_of_neg (p := fun (q : String × PyVal) => q.1 == k) _ hx2]
          have := ih hnd2 k
          simpa [lookupField, dictLookup] using this
  | swap x y l =>
      intro hnd k
      rw [List.map_cons, List.map_cons] at hnd
      have h1 := List.nodup_cons.mp hnd
      have hxy : ¬(y.1 = x.1) := by
        intro hc
        refine h1.1 ?_
        rw [hc]
        exact List.mem_cons_self _ _
      cases hx : x.1 == k with
      | true =>
          have hy : ¬((fun p => p.1 == k) y = true) := by
            intro hc
            exact hxy ((eq_of_beq hc).trans (eq_of_beq hx).symm)
          simp only [lookupField, dictLookup]
          rw [List.find?_cons_of_neg (p := fun (q : String × PyVal) => q.1 == k) _ hy, List.find?_cons_of_pos (p := fun (q : String × PyVal) => q.1 == k) _ hx,
            List.find?_cons_of_pos (p := fun (q : String × PyVal) => q.1 == k) _ hx]
      | false =>
          have hx2 : ¬((fun p => p.1 == k) x = true) := by simp [hx]
          cases hy : y.1 == k with
          | true =>
              simp only [lookupField, dictLookup]
              rw [List.find?_cons_of_pos (p := fun (q : String × PyVal) => q.1 == k) _ hy, List.find?_cons_of_neg (p := fun (q : String × PyVal) => q.1 == k) _ hx2,
                List.find?_cons_of_pos (p := fun (q : String × PyVal) => q.1 == k) _ hy]
          | false =>
              have hy2 : ¬((fun p => p.1 == k) y = true) := by simp [hy]
              simp only [lookupField, dictLookup]
              rw [List.find?_cons_of_neg (p := fun (q : String × PyVal) => q.1 == k) _ hy2, List.find?_cons_of_neg (p := fun (q : String × PyVal) => q.1 == k) _ hx2,
                List.find?_cons_of_neg (p := fun (q : String × PyVal) => q.1 == k) _ hx2, List.find?_cons_of_neg (p := fun (q : String × PyVal) => q.1 == k) _ hy2]
  | trans h1 h2 ih1 ih2 =>
      intro hnd k
      exact (ih1 hnd k).trans (ih2 ((h1.map Prod.fst).nodup hnd) k)

/-- The stub output always begins with the fixed template text, so it
is never empty. -/
theorem predict_output_ne_empty (svc : ModelService) (p : String)
    (mt : Option Int) (tp : Option Rat) : (svc.predict p mt tp).output ≠ "" := by
  intro hc
  have h2 := congrArg String.length hc
  have h19 : ("Model response to: " : String).length = 19 := rfl
  simp only [ModelService.predict, String.length_append, String.length_empty] at h2
  omega

/-- Claim C9: validation accepts exactly the in-range boundary inputs:
empty prompt, max_tokens 0 and 1001, temperature -0.01 and 2.01 are
rejected, while a one-character prompt, max_tokens 1 and 1000,
temperature 0.0 and 2.0 are accepted. -/
theorem validation_boundaries :
    (parseBody [("prompt", .str "")]).isOk = false ∧
    (parseBody [("prompt", .str "test"), ("max_tokens", .int 0)]).isOk = false ∧
    (parseBody [("prompt", .str "test"), ("max_tokens", .int 1001)]).isOk = false ∧
    (parseBody [("prompt", .str "test"), ("temperature", .float (mkRat (-1) 100))]).isOk = false ∧
    (parseBody [("prompt", .str "test"), ("temperature", .float (mkRat 201 100))]).isOk = false ∧
    (parseBody [("prompt", .str "a")]).isOk = true ∧
    (parseBody [("prompt", .str "test"), ("max_tokens", .int 1)]).isOk = true ∧
    (parseBody [("prompt", .str "test"), ("max_tokens", .int 1000)]).isOk = true ∧
    (parseBody [("prompt", .str "test"), ("temperature", .float 0)]).isOk = true ∧
    (parseBody [("prompt", .str "test"), ("temperature", .float 2)]).isOk = true := by
  decide

/-- Claim C4: predict returns tokens_used equal to
len(prompt) // 4 + min(max_tokens, len(prompt) // 4 + 10) together
with a non-empty output; on the concrete 32-character prompt with
max_tokens 50 this is 8 + min(50, 18) = 26, and the model_version of
the result is the configured model version. -/
theorem predict_token_arithmetic (svc : ModelService) (prompt : String) (m : Int)
    (tp : Option Rat) (hm : 1 ≤ m) :
    (svc.predict prompt (Option.some m) tp).tokens_used =
      ((prompt.length / 4 : Nat) : Int) +
        min m (((prompt.length / 4 : Nat) : Int) + 10) ∧
    (svc.predict prompt (Option.some m) tp).output ≠ "" ∧
    (model_service.predict "What is artificial intelligence?" (Option.some 50)
        (Option.some (mkRat 7 10))).tokens_used = 26 ∧
    (model_service.predict "What is artificial intelligence?" (Option.some 50)
        (Option.some (mkRat 7 10))).model_version = settings.model_version ∧
    (model_service.predict "What is artificial intelligence?" (Option.some 50)
        (Option.some (mkRat 7 10))).output ≠ "" := by
  have hm0 : ¬(m = 0) := by omega
  refine ⟨?_, predict_output_ne_empty svc prompt (Option.some m) tp, by decide, rfl,
    predict_output_ne_empty model_service _ _ _⟩
  simp [ModelService.predict, effectiveMaxTokens, pyOrInt, hm0]

/-- Witness for C4 at prompt hello and max_tokens 50. -/
theorem predict_token_arithmetic_witness :
    (1 : Int) ≤ 50 ∧
    ((model_service.predict "hello" (Option.some 50) (Option.some 1)).tokens_used =
      ((("hello" : String).length / 4 : Nat) : Int) +
        min 50 (((("hello" : String).length / 4 : Nat) : Int) + 10) ∧
    (model_service.predict "hello" (Option.some 50) (Option.some 1)).output ≠ "" ∧
    (model_service.predict "What is artificial intelligence?" (Option.some 50)
        (Option.some (mkRat 7 10))).tokens_used = 26 ∧
    (model_service.predict "What is artificial intelligence?" (Option.some 50)
        (Option.some (mkRat 7 10))).model_version = settings.model_version ∧
    (model_service.predict "What is artificial intelligence?" (Option.some 50)
        (Option.some (mkRat 7 10))).output ≠ "") :=
  ⟨by decide, predict_token_arithmetic model_service "hello" 50 (Option.some 1) (by decide)⟩

/-- Claim C5 counterexample: with max_tokens omitted, the value used
for inference is the request-schema default 100, not the configured
model value 1000; and a supplied boundary temperature of 0.0, being
falsy under the or idiom, is replaced by the default 0.7 rather than
used. -/
theorem request_defaults_counterexample :
    parseBody [("prompt", .str "x")] =
      .ok { prompt := "x", max_tokens := Option.some 100,
            temperature := Option.some (mkRat 7 10) } ∧
    effectiveMaxTokens model_service (Option.some 100) = 100 ∧
    settings.model_max_tokens = 1000 ∧ (100 : Int) ≠ 1000 ∧
    parseTemperature [("prompt", .str "x"), ("temperature", .float 0)] =
      .ok (Option.some 0) ∧
    effectiveTemperature model_service (Option.some 0) = mkRat 7 10 ∧
    mkRat 7 10 ≠ 0 := by
  refine ⟨rfl, by decide, by decide, by decide, rfl, by decide, by decide⟩

/-- Claim C5 as amended: an omitted max_tokens or temperature takes the
request-schema defaults 100 and 0.7; a supplied nonzero in-range value
(such as max_tokens = 1) is used as given; the configured model values
are used only through the or fallback, which also swallows a supplied
temperature of 0.0 and a supplied (invalid) max_tokens of 0, and an
explicit null max_tokens. -/
theorem request_defaults_amended (p : String) (hp : 1 ≤ p.length) (m : Int)
    (hm : 1 ≤ m) (t : Rat) (ht : 0 < t) :
    parseBody [("prompt", .str p)] =
      .ok { prompt := p, max_tokens := Option.some 100,
            temperature := Option.some (mkRat 7 10) } ∧
    effectiveMaxTokens model_service (Option.some m) = m ∧
    effectiveTemperature model_service (Option.some t) = t ∧
    effectiveTemperature model_service (Option.some 0) = settings.model_temperature ∧
    effectiveMaxTokens model_service Option.none = settings.model_max_tokens := by
  refine ⟨?_, ?_, ?_, rfl, rfl⟩
  · have h1 : parsePrompt [("prompt", .str p)] = .ok p := by
      simp [parsePrompt, lookupField, dictLookup, hp]
    unfold parseBody
    rw [h1]
    rfl
  · have hm0 : ¬(m = 0) := by omega
    simp [effectiveMaxTokens, pyOrInt, hm0]
  · have ht0 : ¬(t = 0) := by
      intro hc
      rw [hc] at ht
      exact lt_irrefl 0 ht
    simp [effectiveTemperature, pyOrRat, ht0]

/-- Witness for the amended C5 at prompt x, max_tokens 1,
temperature 2. -/
theorem request_defaults_amended_witness :
    1 ≤ ("x" : String).length ∧ (1 : Int) ≤ 1 ∧ (0 : Rat) < 2 ∧
    (parseBody [("prompt", .str "x")] =
      .ok { prompt := "x", max_tokens := Option.some 100,
            temperature := Option.some (mkRat 7 10) } ∧
    effectiveMaxTokens model_service (Option.some 1) = 1 ∧
    effectiveTemperature model_service (Option.some 2) = 2 ∧
    effectiveTemperature model_service (Option.some 0) = settings.model_temperature ∧
    effectiveMaxTokens model_service Option.none = settings.model_max_tokens) :=
  ⟨by decide, by decide, by decide,
    request_defaults_amended "x" (by decide) 1 (by decide) 2 (by decide)⟩

/-- Claim C3: with the store disabled or the backend raising, get
returns None and set leaves the store untouched (both are total, so
neither raises to its caller), and the handler still returns the
normal successful response computed by the stub. -/
theorem cache_fail_open (svc : CacheService) (model : ModelService) (st : Store)
    (beh : CallOutcome) (p : String) (result : PyVal) (mt : Option Int)
    (tp : Option Rat) (req : InferenceRequest)
    (h : svc.connected = false ∨ beh = .raise) :
    (svc.get st beh p mt tp).1 = .none ∧
    (svc.set st beh p result mt tp).1 = st ∧
    (inference svc model st beh beh req).response =
      .ok { output := (model.predict req.prompt req.max_tokens req.temperature).output,
            tokens_used :=
              (model.predict req.prompt req.max_tokens req.temperature).tokens_used,
            model_version :=
              (model.predict req.prompt req.max_tokens req.temperature).model_version } := by
  rcases h with h | h
  · exact ⟨by simp [CacheService.get, h],
      by simp [CacheService.set, h],
      by simp [inference, CacheService.get, CacheService.set, pyTruthy, h]⟩
  · by_cases hc : svc.connected = false
    · exact ⟨by simp [CacheService.get, hc],
        by simp [CacheService.set, hc],
        by simp [inference, CacheService.get, CacheService.set, pyTruthy, hc]⟩
    · exact ⟨by simp [CacheService.get, hc, h],
        by simp [CacheService.set, hc, h],
        by simp [inference, CacheService.get, CacheService.set, pyTruthy, hc, h]⟩

/-- Witness for C3 on the disabled service. -/
theorem cache_fail_open_witness :
    (svcOff.connected = false ∨ CallOutcome.ok = CallOutcome.raise) ∧
    ((svcOff.get [] .ok "hi" (Option.some 50) (Option.some (mkRat 7 10))).1 = .none ∧
    (svcOff.set [] .ok "hi" (.dict []) (Option.some 50) (Option.some (mkRat 7 10))).1 = [] ∧
    (inference svcOff model_service [] .ok .ok reqHi).response =
      .ok { output := (model_service.predict reqHi.prompt reqHi.max_tokens
              reqHi.temperature).output,
            tokens_used := (model_service.predict reqHi.prompt reqHi.max_tokens
              reqHi.temperature).tokens_used,
            model_version := (model_service.predict reqHi.prompt reqHi.max_tokens
              reqHi.temperature).model_version }) :=
  ⟨Or.inl rfl,
    cache_fail_open svcOff model_service [] .ok "hi" (.dict []) (Option.some 50)
      (Option.some (mkRat 7 10)) reqHi (Or.inl rfl)⟩

/-- Claim C7 counterexample: a malformed request (empty prompt) is
rejected with a validation error before the limiter wrapper runs: the
event trace holds only the validation failure and the rate-limit
window of the client is left exactly as it was, so no rate-limit slot
is consumed. -/
theorem admission_order_counterexample :
    processRequest settings svcOff model_service .ok .ok [("1.2.3.4", 0, 3)] [] 0
      "1.2.3.4" [("prompt", .str "")] =
      { response := .unprocessableEntity, window := [("1.2.3.4", 0, 3)], store := [],
        events := [.validationFailed] } := rfl

/-- Claim C7 as amended: FastAPI resolves and validates the request
body before invoking the slowapi-decorated endpoint, so every request
whose body fails validation returns 422 with the rate-limit window
unchanged and the limiter never consulted. -/
theorem admission_order_amended (s : Settings) (svc : CacheService)
    (model : ModelService) (gB sB : CallOutcome) (win : WindowState) (st : Store)
    (now : Nat) (identity : String) (body : RawPayload) (e : ValidationFailure)
    (h : parseBody body = .error e) :
    processRequest s svc model gB sB win st now identity body =
      { response := .unprocessableEntity, window := win, store := st,
        events := [.validationFailed] } := by
  simp [processRequest, h]

/-- Witness for the amended C7 on an empty prompt. -/
theorem admission_order_amended_witness :
    parseBody [("prompt", .str "")] = .error .badPrompt ∧
    processRequest settings svcOn model_service .ok .ok [] [] 0 "9.9.9.9"
      [("prompt", .str "")] =
      { response := .unprocessableEntity, window := [], store := [],
        events := [.validationFailed] } :=
  ⟨rfl, admission_order_amended settings svcOn model_service .ok .ok [] [] 0
    "9.9.9.9" [("prompt", .str "")] .badPrompt rfl⟩

/-- Bind of a successful Except value. -/
theorem except_bind_ok {ε α β : Type} (a : α) (f : α → Except ε β) :
    (Except.ok (ε := ε) a >>= f) = f a := rfl

/-- Bind of a failed Except value. -/
theorem except_bind_error {ε α β : Type} (e : ε) (f : α → Except ε β) :
    (Except.error (α := α) e >>= f) = Except.error e := rfl

/-- Claim C6: connect makes at most 3 attempts with a fixed 2-second
sleep between consecutive attempts (one fewer sleeps than attempts);
when every attempt fails the service is left disabled rather than
failing startup; and in the disabled state an arbitrary sequence of
later get and set calls issues no backend operation at all — no I/O
and no reconnection — and leaves the store untouched. -/
theorem connect_retry_disabled_terminal (outcome : Nat → Bool) (svc : CacheService)
    (st : Store) (calls : List CacheCall) (hdis : svc.connected = false) :
    (CacheService.connect outcome).attempts ≤ 3 ∧
    (∀ d ∈ (CacheService.connect outcome).sleeps, d = 2) ∧
    (CacheService.connect outcome).sleeps.length + 1 =
      (CacheService.connect outcome).attempts ∧
    ((outcome 0 = false ∧ outcome 1 = false ∧ outcome 2 = false) →
      CacheService.connect outcome =
        { connected := false, attempts := 3, sleeps := [2, 2] }) ∧
    runCacheCalls svc st calls = (st, []) := by
  refine ⟨?_, ?_, ?_, ?_, ?_⟩
  · cases h0 : outcome 0 <;> cases h1 : outcome 1 <;> cases h2 : outcome 2 <;>
      simp [CacheService.connect, connectGo, h0, h1, h2]
  · cases h0 : outcome 0 <;> cases h1 : outcome 1 <;> cases h2 : outcome 2 <;>
      simp [CacheService.connect, connectGo, h0, h1, h2]
  · cases h0 : outcome 0 <;> cases h1 : outcome 1 <;> cases h2 : outcome 2 <;>
      simp [CacheService.connect, connectGo, h0, h1, h2]
  · intro hall
    simp [CacheService.connect, connectGo, hall.1, hall.2.1, hall.2.2]
  · induction calls generalizing st with
    | nil => rfl
    | cons c rest ih =>
        cases c with
        | getCall beh p mt tp =>
            simp [runCacheCalls, CacheService.get, hdis, ih]
        | setCall beh p v mt tp =>
            simp [runCacheCalls, CacheService.set, hdis, ih]

/-- Witness for C6: all three attempts fail, then one get and one set
run against the disabled service. -/
theorem connect_retry_disabled_terminal_witness :
    svcOff.connected = false ∧
    ((CacheService.connect (fun _ => false)).attempts ≤ 3 ∧
    (∀ d ∈ (CacheService.connect (fun _ => false)).sleeps, d = 2) ∧
    (CacheService.connect (fun _ => false)).sleeps.length + 1 =
      (CacheService.connect (fun _ => false)).attempts ∧
    (((fun _ => false : Nat → Bool) 0 = false ∧ (fun _ => false : Nat → Bool) 1 = false ∧
        (fun _ => false : Nat → Bool) 2 = false) →
      CacheService.connect (fun _ => false) =
        { connected := false, attempts := 3, sleeps := [2, 2] }) ∧
    runCacheCalls svcOff []
      [.getCall .ok "hi" Option.none Option.none,
       .setCall .ok "hi" (.dict []) Option.none Option.none] = ([], [])) :=
  ⟨rfl, connect_retry_disabled_terminal (fun _ => false) svcOff []
    [.getCall .ok "hi" Option.none Option.none,
     .setCall .ok "hi" (.dict []) Option.none Option.none] rfl⟩

/-- Claim C2: the cache key is the inference: tag followed by the hex
SHA-256 digest of the canonical JSON serialization with
lexicographically sorted keys in which an absent optional field is an
explicit null; the key depends only on the three logical field values,
so two transport payloads that are reorderings of one another
fingerprint identically. -/
theorem fingerprint_canonical_deterministic (prompt : String) (mt : Option Int)
    (tp : Option Rat) (p1 p2 : RawPayload) (hperm : p1.Perm p2)
    (hnd : (p1.map Prod.fst).Nodup) :
    generate_cache_key prompt mt tp =
      "inference:" ++ sha256hex (utf8Bytes (cacheString prompt mt tp)) ∧
    cacheString prompt Option.none Option.none =
      "\x7b\"max_tokens\": " ++ "null" ++ ", \"prompt\": " ++ jsonString prompt ++
        ", \"temperature\": " ++ "null" ++ "\x7d" ∧
    fingerprintOfPayload p1 = fingerprintOfPayload p2 := by
  refine ⟨rfl, rfl, ?_⟩
  have h1 := lookupField_perm hperm hnd "prompt"
  have h2 := lookupField_perm hperm hnd "max_tokens"
  have h3 := lookupField_perm hperm hnd "temperature"
  unfold fingerprintOfPayload parseBody parsePrompt parseMaxTokens parseTemperature
  rw [h1, h2, h3]

/-- Witness for C2: the same two fields sent in both orders. -/
theorem fingerprint_canonical_deterministic_witness :
    ([("prompt", PyVal.str "hi"), ("max_tokens", PyVal.int 50)] : RawPayload).Perm
      [("max_tokens", PyVal.int 50), ("prompt", PyVal.str "hi")] ∧
    (([("prompt", PyVal.str "hi"), ("max_tokens", PyVal.int 50)] : RawPayload).map
      Prod.fst).Nodup ∧
    (generate_cache_key "x" Option.none Option.none =
      "inference:" ++ sha256hex (utf8Bytes (cacheString "x" Option.none Option.none)) ∧
    cacheString "x" Option.none Option.none =
      "\x7b\"max_tokens\": " ++ "null" ++ ", \"prompt\": " ++ jsonString "x" ++
        ", \"temperature\": " ++ "null" ++ "\x7d" ∧
    fingerprintOfPayload [("prompt", PyVal.str "hi"), ("max_tokens", PyVal.int 50)] =
      fingerprintOfPayload [("max_tokens", PyVal.int 50), ("prompt", PyVal.str "hi")]) :=
  ⟨List.Perm.swap ("max_tokens", PyVal.int 50) ("prompt", PyVal.str "hi") [],
   by decide,
   fingerprint_canonical_deterministic "x" Option.none Option.none
     [("prompt", PyVal.str "hi"), ("max_tokens", PyVal.int 50)]
     [("max_tokens", PyVal.int 50), ("prompt", PyVal.str "hi")]
     (List.Perm.swap ("max_tokens", PyVal.int 50) ("prompt", PyVal.str "hi") [])
     (by decide)⟩

/-- A run of the endpoint body against a store that misses the request
key: the stub runs once and its result dict is written under the key
with the service TTL. -/
theorem inference_miss_run (svc : CacheService) (model : ModelService) (st : Store)
    (req : InferenceRequest) (hconn : svc.connected = true)
    (hmiss : storeGet st
      (generate_cache_key req.prompt req.max_tokens req.temperature) = Option.none) :
    inference svc model st .ok .ok req =
      { response := .ok
          { output := (model.predict req.prompt req.max_tokens req.temperature).output,
            tokens_used :=
              (model.predict req.prompt req.max_tokens req.temperature).tokens_used,
            model_version :=
              (model.predict req.prompt req.max_tokens req.temperature).model_version },
        store := storeSet st
          (generate_cache_key req.prompt req.max_tokens req.temperature) svc.ttl
          (.json (model.predict req.prompt req.max_tokens req.temperature).toDict),
        stub_calls := 1,
        backend_ops :=
          [.getKey (generate_cache_key req.prompt req.max_tokens req.temperature),
           .setex (generate_cache_key req.prompt req.max_tokens req.temperature) svc.ttl
             (model.predict req.prompt req.max_tokens req.temperature).toDict] } := by
  have hconn2 : ¬(svc.connected = false) := by simp [hconn]
  simp [inference, CacheService.get, CacheService.set, hconn2, hmiss, pyTruthy]

/-- A run of the endpoint body against a store that holds a truthy
parsed value under the request key: the value is served through the
hit path; the stub does not run and nothing is written. -/
theorem inference_hit_run (svc : CacheService) (model : ModelService) (st : Store)
    (req : InferenceRequest) (v : PyVal) (hconn : svc.connected = true)
    (hget : storeGet st (generate_cache_key req.prompt req.max_tokens req.temperature) =
      Option.some (.json v))
    (htr : pyTruthy v = true) :
    inference svc model st .ok .ok req =
      { response := hitResponse v, store := st, stub_calls := 0,
        backend_ops :=
          [.getKey (generate_cache_key req.prompt req.max_tokens req.temperature)] } := by
  have hconn2 : ¬(svc.connected = false) := by simp [hconn]
  simp [inference, CacheService.get, hconn2, hget, htr]

/-- Claim C1: on a request whose key is absent from the store, the
connected handler consults the cache, invokes the stub exactly once and
writes the result dict under the key with the configured service TTL;
an identical request served from the resulting store answers from the
stored entry — the stub is not invoked and nothing is written — with
the very same response. -/
theorem cache_aside_read_through (svc : CacheService) (model : ModelService)
    (st : Store) (req : InferenceRequest) (hconn : svc.connected = true)
    (hmiss : storeGet st
      (generate_cache_key req.prompt req.max_tokens req.temperature) = Option.none) :
    (inference svc model st .ok .ok req).stub_calls = 1 ∧
    (inference svc model st .ok .ok req).backend_ops =
      [.getKey (generate_cache_key req.prompt req.max_tokens req.temperature),
       .setex (generate_cache_key req.prompt req.max_tokens req.temperature) svc.ttl
         (model.predict req.prompt req.max_tokens req.temperature).toDict] ∧
    storeGet (inference svc model st .ok .ok req).store
      (generate_cache_key req.prompt req.max_tokens req.temperature) =
      Option.some (.json (model.predict req.prompt req.max_tokens req.temperature).toDict) ∧
    (inference svc model (inference svc model st .ok .ok req).store .ok .ok req).stub_calls
      = 0 ∧
    (inference svc model (inference svc model st .ok .ok req).store .ok .ok req).backend_ops
      = [.getKey (generate_cache_key req.prompt req.max_tokens req.temperature)] ∧
    (inference svc model (inference svc model st .ok .ok req).store .ok .ok req).response
      = (inference svc model st .ok .ok req).response := by
  have h1 := inference_miss_run svc model st req hconn hmiss
  have hget2 : storeGet (inference svc model st .ok .ok req).store
      (generate_cache_key req.prompt req.max_tokens req.temperature) =
      Option.some (.json (model.predict req.prompt req.max_tokens req.temperature).toDict) := by
    rw [h1]
    exact storeGet_storeSet_self _ _ _ _
  have htr : pyTruthy (model.predict req.prompt req.max_tokens req.temperature).toDict
      = true := rfl
  have h2 := inference_hit_run svc model (inference svc model st .ok .ok req).store req
    (model.predict req.prompt req.max_tokens req.temperature).toDict hconn hget2 htr
  refine ⟨by rw [h1], by rw [h1], hget2, by rw [h2], by rw [h2], ?_⟩
  rw [h2, h1]
  exact hitResponse_toDict (model.predict req.prompt req.max_tokens req.temperature)

/-- Witness for C1: the empty store misses every key. -/
theorem cache_aside_read_through_witness :
    svcOn.connected = true ∧
    storeGet [] (generate_cache_key reqHi.prompt reqHi.max_tokens reqHi.temperature)
      = Option.none ∧
    ((inference svcOn model_service [] .ok .ok reqHi).stub_calls = 1 ∧
    (inference svcOn model_service [] .ok .ok reqHi).backend_ops =
      [.getKey (generate_cache_key reqHi.prompt reqHi.max_tokens reqHi.temperature),
       .setex (generate_cache_key reqHi.prompt reqHi.max_tokens reqHi.temperature)
         svcOn.ttl
         (model_service.predict reqHi.prompt reqHi.max_tokens reqHi.temperature).toDict] ∧
    storeGet (inference svcOn model_service [] .ok .ok reqHi).store
      (generate_cache_key reqHi.prompt reqHi.max_tokens reqHi.temperature) =
      Option.some (.json
        (model_service.predict reqHi.prompt reqHi.max_tokens reqHi.temperature).toDict) ∧
    (inference svcOn model_service (inference svcOn model_service [] .ok .ok reqHi).store
      .ok .ok reqHi).stub_calls = 0 ∧
    (inference svcOn model_service (inference svcOn model_service [] .ok .ok reqHi).store
      .ok .ok reqHi).backend_ops =
      [.getKey (generate_cache_key reqHi.prompt reqHi.max_tokens reqHi.temperature)] ∧
    (inference svcOn model_service (inference svcOn model_service [] .ok .ok reqHi).store
      .ok .ok reqHi).response = (inference svcOn model_service [] .ok .ok reqHi).response) :=
  ⟨rfl, rfl, cache_aside_read_through svcOn model_service [] reqHi rfl rfl⟩

/-- Claim C8 counterexample: with rate_limit_enabled false at limiter
construction (so its default limits are empty), the eleventh identical
request from one client within one window is rejected with a
rate-limit outcome: the explicit decorator limit of 10 per minute on
the route still applies. -/
theorem rate_limit_disabled_counterexample :
    settingsOff.rate_limit_enabled = false ∧
    (mkLimiter settingsOff).defaultLimits = [] ∧
    (runRepeated settingsOff svcOff model_service "1.2.3.4" goodBody 10).response =
      .tooManyRequests := by
  refine ⟨rfl, rfl, ?_⟩
  decide

/-- Claim C8 as amended: disabling rate limiting by configuration only
empties the default limits of the limiter; the explicit route
decorator limit rate_limit_per_minute/minute still gates the endpoint,
so a client whose current window count has reached that limit is
rejected even though rate_limit_enabled was false at construction. -/
theorem rate_limit_disabled_amended (s : Settings) (svc : CacheService)
    (model : ModelService) (gB sB : CallOutcome) (win : WindowState) (st : Store)
    (now : Nat) (identity : String) (body : RawPayload) (req : InferenceRequest)
    (start count : Nat)
    (hoff : s.rate_limit_enabled = false)
    (hok : parseBody body = .ok req)
    (hfind : win.find? (fun e => e.1 == identity) = Option.some (identity, start, count))
    (hwin : now < start + 60)
    (hcount : s.rate_limit_per_minute ≤ count) :
    (mkLimiter s).defaultLimits = [] ∧
    (processRequest s svc model gB sB win st now identity body).response =
      .tooManyRequests := by
  have h1 : ¬(start + 60 ≤ now) := by omega
  have h2 : ¬(count < s.rate_limit_per_minute) := by omega
  constructor
  · simp [mkLimiter, hoff]
  · simp [processRequest, hok, limiterCheck, mkLimiter, windowHit,
      routeLimitPerMinute, hfind, h1, h2]

/-- Witness for the amended C8: a full window of ten for the client. -/
theorem rate_limit_disabled_amended_witness :
    settingsOff.rate_limit_enabled = false ∧
    parseBody goodBody = .ok
      { prompt := "hi", max_tokens := Option.some 100,
        temperature := Option.some (mkRat 7 10) } ∧
    (([("1.2.3.4", 0, 10)] : WindowState).find? (fun e => e.1 == "1.2.3.4") =
      Option.some ("1.2.3.4", 0, 10)) ∧
    (0 : Nat) < 0 + 60 ∧
    settingsOff.rate_limit_per_minute ≤ 10 ∧
    ((mkLimiter settingsOff).defaultLimits = [] ∧
    (processRequest settingsOff svcOff model_service .ok .ok [("1.2.3.4", 0, 10)] [] 0
      "1.2.3.4" goodBody).response = .tooManyRequests) :=
  ⟨rfl, rfl, rfl, by decide, by decide,
   rate_limit_disabled_amended settingsOff svcOff model_service .ok .ok
     [("1.2.3.4", 0, 10)] [] 0 "1.2.3.4" goodBody
     { prompt := "hi", max_tokens := Option.some 100,
       temperature := Option.some (mkRat 7 10) } 0 10 rfl rfl rfl (by decide) (by decide)⟩

/-- A hit-path run over a dict lacking one of the three response keys
ends in an exception, never a normal response. -/
theorem hitResponse_missing_key (fields : List (String × PyVal))
    (hmiss : dictLookup fields "output" = Option.none ∨
      dictLookup fields "tokens_used" = Option.none ∨
      dictLookup fields "model_version" = Option.none) :
    (hitResponse (.dict fields)).isOk = false := by
  unfold hitResponse pyDictFields
  cases htk : dictLookup fields "tokens_used" with
  | none => simp [dictItem, htk, except_bind_ok, except_bind_error, Except.isOk, Except.toBool]
  | some v =>
      cases hout : dictLookup fields "output" with
      | none => simp [dictItem, htk, hout, except_bind_ok, except_bind_error, Except.isOk, Except.toBool]
      | some w =>
          cases hmv : dictLookup fields "model_version" with
          | none =>
              simp [dictItem, htk, hout, hmv, except_bind_ok, except_bind_error,
                Except.isOk, Except.toBool]
          | some u =>
              rcases hmiss with h | h | h
              · rw [hout] at h; cases h
              · rw [htk] at h; cases h
              · rw [hmv] at h; cases h

/-- Claim C10 counterexample: the entry stored under the request key is
the well-formed JSON text of an object with no fields at all — it
lacks output, tokens_used and model_version — yet the handler does not
raise: the empty dict is falsy, so the handler takes the miss path,
invokes the stub once and returns a normal response. -/
theorem malformed_entry_counterexample :
    storeGet storeEmptyDict
      (generate_cache_key reqHi.prompt reqHi.max_tokens reqHi.temperature) =
      Option.some (.json (.dict [])) ∧
    (inference svcOn model_service storeEmptyDict .ok .ok reqHi).stub_calls = 1 ∧
    (inference svcOn model_service storeEmptyDict .ok .ok reqHi).response.isOk = true := by
  have hget : storeGet storeEmptyDict
      (generate_cache_key reqHi.prompt reqHi.max_tokens reqHi.temperature) =
      Option.some (.json (.dict [])) := storeGet_single _ _ _
  refine ⟨hget, ?_, ?_⟩ <;>
    simp [inference, CacheService.get, svcOn, hget, pyTruthy, Except.isOk, Except.toBool]

/-- Claim C10 as amended: a cached entry parsing to a non-empty dict
that lacks any of output, tokens_used or model_version makes the
handler raise (surfaced as an internal error) rather than recompute:
the stub is not called and the store is unchanged; the fail-open policy
covers backend failures and unparseable values but not such entries —
with the one exception of the empty dict, which is falsy and is
recomputed as a miss. -/
theorem malformed_entry_amended (svc : CacheService) (model : ModelService)
    (st : Store) (req : InferenceRequest) (fields : List (String × PyVal))
    (hconn : svc.connected = true)
    (hst : storeGet st (generate_cache_key req.prompt req.max_tokens req.temperature) =
      Option.some (.json (.dict fields)))
    (hne : fields ≠ [])
    (hmiss : dictLookup fields "output" = Option.none ∨
      dictLookup fields "tokens_used" = Option.none ∨
      dictLookup fields "model_version" = Option.none) :
    (inference svc model st .ok .ok req).response.isOk = false ∧
    (inference svc model st .ok .ok req).stub_calls = 0 ∧
    (inference svc model st .ok .ok req).store = st := by
  have htr : pyTruthy (.dict fields) = true := by
    cases fields with
    | nil => exact absurd rfl hne
    | cons a t => rfl
  have hrun := inference_hit_run svc model st req (.dict fields) hconn hst htr
  rw [hrun]
  exact ⟨hitResponse_missing_key fields hmiss, rfl, rfl⟩

/-- Witness for the amended C10: a one-field dict without any of the
three response keys. -/
theorem malformed_entry_amended_witness :
    svcOn.connected = true ∧
    storeGet storeMissingKeys
      (generate_cache_key reqHi.prompt reqHi.max_tokens reqHi.temperature) =
      Option.some (.json (.dict [("foo", .int 1)])) ∧
    ([("foo", PyVal.int 1)] : List (String × PyVal)) ≠ [] ∧
    (dictLookup [("foo", .int 1)] "output" = Option.none ∨
      dictLookup [("foo", .int 1)] "tokens_used" = Option.none ∨
      dictLookup [("foo", .int 1)] "model_version" = Option.none) ∧
    ((inference svcOn model_service storeMissingKeys .ok .ok reqHi).response.isOk = false ∧
    (inference svcOn model_service storeMissingKeys .ok .ok reqHi).stub_calls = 0 ∧
    (inference svcOn model_service storeMissingKeys .ok .ok reqHi).store =
      storeMissingKeys) :=
  ⟨rfl, storeGet_single _ _ _, List.cons_ne_nil _ _, Or.inl rfl,
   malformed_entry_amended svcOn model_service storeMissingKeys reqHi
     [("foo", .int 1)] rfl (storeGet_single _ _ _) (List.cons_ne_nil _ _) (Or.inl rfl)⟩
